import Mathlib

/-!
Shallow embedding of the phone-store backend (src/main.py, src/schemas.py).

Conventions of the embedding:
* MongoDB collections become Lean lists kept in insertion order; `find_one`
  returns the first matching document and `update_one` updates the first
  matching document, as in MongoDB.
* Python floats for prices and totals are modelled as exact rationals (ℚ);
  Python ints (quantities, stock) as ℤ, since Python integers are unbounded
  and a Mongo `$inc` can drive `stock` below zero.
* A FastAPI `HTTPException` is modelled as an `HTTPError` value carried in
  `Except`; a non-HTTP Python exception that a `try/except` converts into an
  `HTTPException` is also modelled as an `HTTPError` carried in the same way
  (only its presence matters, the handlers discard it).
* `try: ... except Exception: raise HTTPException(400, msg)` is modelled by
  running the body and mapping every error (including `HTTPException`s raised
  inside the body, which Python's blanket `except Exception` also catches) to
  the fixed 400 error of the handler.
-/

namespace PhoneStore

/-- Error value modelling a FastAPI HTTPException: status code and detail
string. Other raised Python exceptions are carried as this type too, with the
status/detail of the place they would surface. -/
structure HTTPError where
  status : Nat
  detail : String
deriving DecidableEq

/-- Decidable equality on `Except`, so that concrete endpoint results can be
settled with `decide`. -/
instance {ε α : Type} [DecidableEq ε] [DecidableEq α] :
    DecidableEq (Except ε α)
  | .error a, .error b => decidable_of_iff (a = b) (by simp)
  | .error _, .ok _ => isFalse (fun h => Except.noConfusion h)
  | .ok _, .error _ => isFalse (fun h => Except.noConfusion h)
  | .ok a, .ok b => decidable_of_iff (a = b) (by simp)

/-- Document of the "phoneproduct" collection (schemas.Phoneproduct). The
purely descriptive optional fields (description, colors, storage, screen,
battery, camera) are never read by any endpoint logic and are omitted; `id` is
the string form of the Mongo `_id`. -/
structure Phoneproduct where
  id : String
  brand : String
  model : String
  price : ℚ
  stock : ℤ
  image : Option String
deriving DecidableEq

/-- Line item snapshotted into an order by create_order (main.py lines
172-179). -/
structure LineItem where
  product_id : String
  brand : String
  model : String
  price : ℚ
  qty : ℤ
  image : Option String
deriving DecidableEq

/-- Document of the "order" collection (schemas.Order). -/
structure Order where
  customer_name : String
  email : String
  address : String
  city : String
  country : String
  items : List LineItem
  total : ℚ
  status : String
deriving DecidableEq

/-- Request-body item for POST /api/orders (main.CartItem). -/
structure CartItem where
  product_id : String
  qty : ℤ
deriving DecidableEq

/-- Request body for POST /api/orders (main.CreateOrderRequest). Pydantic
enforces presence and types of these fields; it imposes no other constraint
here (no non-empty check, no bound on qty). -/
structure CreateOrderRequest where
  customer_name : String
  email : String
  address : String
  city : String
  country : String
  items : List CartItem
deriving DecidableEq

/-- Success body of POST /api/orders (main.py line 200). -/
structure OrderResponse where
  order_id : String
  total : ℚ
  status : String
deriving DecidableEq

/-- State of the store: the two collections the endpoints touch. -/
structure DB where
  phoneproducts : List Phoneproduct
  orders : List Order
deriving DecidableEq

/-- Hex-digit test used by ObjectId validity. -/
def isHexChar (c : Char) : Bool :=
  c.isDigit || (decide (Char.ofNat 97 ≤ c) && decide (c ≤ Char.ofNat 102))
    || (decide (Char.ofNat 65 ≤ c) && decide (c ≤ Char.ofNat 70))

/-- Validity of a string as a bson ObjectId: the `ObjectId(s)` constructor
accepts exactly 24-character hexadecimal strings and raises otherwise. -/
def isValidObjectId (s : String) : Bool :=
  decide (s.length = 24) && s.data.all isHexChar

/-- Mongo find_one on the "phoneproduct" collection with filter
matching the ObjectId of the given string: first document whose id matches. -/
def findOne : List Phoneproduct → String → Option Phoneproduct
  | [], _ => none
  | p :: ps, i => if p.id = i then some p else findOne ps i

/-- Mongo update_one with a negative `$inc` on stock (main.py line 198):
decrement the stock of the first document whose id matches, unconditionally.
The accompanying `$set updated_at` is invisible in this model. -/
def decStockFirst : List Phoneproduct → String → ℤ → List Phoneproduct
  | [], _, _ => []
  | p :: ps, i, q =>
    if p.id = i then { p with stock := p.stock - q } :: ps
    else p :: decStockFirst ps i q

/-- The decrement loop of create_order (main.py lines 197-198), applied
sequentially over the payload items. -/
def applyDecrements : List Phoneproduct → List CartItem → List Phoneproduct
  | cat, [] => cat
  | cat, it :: its => applyDecrements (decStockFirst cat it.product_id it.qty) its

/-- Modelled from the spec: the Persistence Gateway's
`find(collectionName, filter)` (database.get_documents; database.py is not
among the sources). Returns all documents of the collection matching the
filter, in insertion order. -/
def get_documents (cat : List Phoneproduct) (flt : Phoneproduct → Bool) :
    List Phoneproduct :=
  cat.filter flt

/-- Modelled from the spec: the Persistence Gateway's
`create(collectionName, document)` (database.create_document; database.py is
not among the sources). Appends the document to the collection and returns a
store-generated identifier. -/
def create_document (orders : List Order) (o : Order) : String × List Order :=
  ("order-" ++ toString orders.length, orders ++ [o])

/-- Python's round-half-to-even on an exact rational, computed on the
numerator and denominator with integer arithmetic only (`fl` is the floor of
`q`, `r` the non-negative remainder, and the fractional part `r / den` is
compared against one half by cross-multiplication), so that the definition
reduces inside the kernel. -/
def roundHalfEven (q : ℚ) : ℤ :=
  let fl : ℤ := Int.fdiv q.num q.den
  let r : ℤ := q.num - fl * q.den
  if 2 * r < (q.den : ℤ) then fl
  else if (q.den : ℤ) < 2 * r then fl + 1
  else if fl % 2 = 0 then fl else fl + 1

/-- Python's `round(x, 2)` modelled on exact rationals. -/
def round2 (q : ℚ) : ℚ :=
  (roundHalfEven (q * 100) : ℚ) / 100

/-- Character match of the modelled regex fragment, case-insensitively
(Mongo `$regex` with `$options: "i"`): a dot matches any character, any other
pattern character matches itself up to ASCII case. -/
def regexCharMatch (p c : Char) : Bool :=
  decide (p = Char.ofNat 46) || decide (p.toLower = c.toLower)

/-- Anchored match of the modelled regex fragment at the start of the text. -/
def regexMatchHere : List Char → List Char → Bool
  | [], _ => true
  | _ :: _, [] => false
  | p :: ps, c :: cs => regexCharMatch p c && regexMatchHere ps cs

/-- Unanchored, case-insensitive regex search, the match semantics of a Mongo
`$regex` filter with the `i` option for patterns made of literal
characters and the `.` wildcard; this model covers exactly that fragment of
the regex language. -/
def regexSearch (pat : List Char) : List Char → Bool
  | [] => regexMatchHere pat []
  | c :: cs => regexMatchHere pat (c :: cs) || regexSearch pat cs

/-- Case-insensitive prefix test on character lists (specification side). -/
def isPrefixOfCI : List Char → List Char → Bool
  | [], _ => true
  | _ :: _, [] => false
  | a :: ra, b :: rb => decide (a.toLower = b.toLower) && isPrefixOfCI ra rb

/-- Case-insensitive substring search on character lists (specification
side). -/
def containsCIAux (pat : List Char) : List Char → Bool
  | [] => isPrefixOfCI pat []
  | c :: cs => isPrefixOfCI pat (c :: cs) || containsCIAux pat cs

/-- Containment of `needle` in `hay` as a case-insensitive substring: the
phrasing of the spec for the catalog filter, written independently of the
code's regex semantics. -/
def containsCI (needle hay : String) : Bool :=
  containsCIAux needle.data hay.data

/-- Characters with a special meaning in the regular-expression language that
Mongo's `$regex` applies to the filter string. -/
def isRegexMeta (c : Char) : Bool :=
  c ∈ [Char.ofNat 46, Char.ofNat 42, Char.ofNat 43, Char.ofNat 63,
       Char.ofNat 94, Char.ofNat 36, Char.ofNat 40, Char.ofNat 41,
       Char.ofNat 91, Char.ofNat 93, Char.ofNat 123, Char.ofNat 125,
       Char.ofNat 124, Char.ofNat 92]

/-- The Mongo filter built by list_phones for a non-empty query (main.py line
127): brand or model matches the query as a case-insensitive regex. -/
def mongoRegexFilter (q : String) (p : Phoneproduct) : Bool :=
  regexSearch q.data p.brand.data || regexSearch q.data p.model.data

/-- GET /api/phones (main.list_phones, lines 122-129): an absent or empty
(falsy) query keeps the empty filter; a non-empty query filters by the
case-insensitive regex on brand or model. -/
def list_phones (cat : List Phoneproduct) (q : Option String) :
    List Phoneproduct :=
  match q with
  | none => get_documents cat (fun _ => true)
  | some s =>
    if s = "" then get_documents cat (fun _ => true)
    else get_documents cat (mongoRegexFilter s)

/-- Body of the `try` block of GET /api/phones/:id
(main.get_phone, lines 135-139): constructing the ObjectId raises on a
malformed id, an absent document raises HTTPException(404). -/
def get_phone_body (cat : List Phoneproduct) (phone_id : String) :
    Except HTTPError Phoneproduct :=
  if isValidObjectId phone_id then
    match findOne cat phone_id with
    | some doc => .ok doc
    | none => .error { status := 404, detail := "Not found" }
  else
    .error { status := 400, detail := "malformed ObjectId" }

/-- GET /api/phones/:id (main.get_phone, lines 131-141). The
`except Exception` at line 140 catches every exception raised in the body —
including the HTTPException(404) of line 138, since HTTPException derives from
Exception — and replaces it with HTTPException(400, "Invalid id"). -/
def get_phone (cat : List Phoneproduct) (phone_id : String) :
    Except HTTPError Phoneproduct :=
  match get_phone_body cat phone_id with
  | .ok doc => .ok doc
  | .error _ => .error { status := 400, detail := "Invalid id" }

/-- The fixed error every failing cart line surfaces as (main.py line 181). -/
def invalidProductError : HTTPError :=
  { status := 400, detail := "Invalid product id" }

/-- Body of the per-item `try` block of create_order (main.py lines 164-179):
malformed id raises from the ObjectId constructor, a missing document raises
HTTPException(400, "Product ... not found"), insufficient stock raises
HTTPException(400, "Not enough stock for ..."); otherwise the line item
snapshot is produced. -/
def processItemBody (cat : List Phoneproduct) (item : CartItem) :
    Except HTTPError LineItem :=
  if isValidObjectId item.product_id then
    match findOne cat item.product_id with
    | none =>
      .error { status := 400,
               detail := "Product " ++ item.product_id ++ " not found" }
    | some doc =>
      if doc.stock < item.qty then
        .error { status := 400, detail := "Not enough stock for " ++ doc.model }
      else
        .ok { product_id := item.product_id, brand := doc.brand,
              model := doc.model, price := doc.price, qty := item.qty,
              image := doc.image }
  else
    .error { status := 400, detail := "malformed ObjectId" }

/-- One iteration of the validation loop of create_order. The blanket
`except Exception` at line 180 catches every exception of the body — the two
HTTPExceptions included — and replaces it with
HTTPException(400, "Invalid product id"). -/
def processItem (cat : List Phoneproduct) (item : CartItem) :
    Except HTTPError LineItem :=
  match processItemBody cat item with
  | .ok li => .ok li
  | .error _ => .error invalidProductError

/-- The validation loop of create_order (main.py lines 163-181), sequential
over the payload items; the first failing line aborts the request. -/
def validateItems (cat : List Phoneproduct) :
    List CartItem → Except HTTPError (List LineItem)
  | [] => .ok []
  | it :: its =>
    match processItem cat it with
    | .error e => .error e
    | .ok li =>
      match validateItems cat its with
      | .error e => .error e
      | .ok rest => .ok (li :: rest)

/-- Total accumulated by the validation loop (line 171): sum over line items
of unit price times quantity. -/
def itemsTotal : List LineItem → ℚ
  | [] => 0
  | li :: ls => li.price * (li.qty : ℚ) + itemsTotal ls

/-- Order document built at main.py lines 183-192. -/
def buildOrder (payload : CreateOrderRequest) (lis : List LineItem) : Order :=
  { customer_name := payload.customer_name, email := payload.email,
    address := payload.address, city := payload.city,
    country := payload.country, items := lis,
    total := round2 (itemsTotal lis), status := "pending" }

/-- Commit phase of create_order (main.py lines 183-198): persist the order
document, then run the unconditional decrement loop. -/
def commitOrder (db : DB) (payload : CreateOrderRequest)
    (lis : List LineItem) : String × DB :=
  let order := buildOrder payload lis
  let created := create_document db.orders order
  (created.1,
   { phoneproducts := applyDecrements db.phoneproducts payload.items,
     orders := created.2 })

/-- POST /api/orders (main.create_order, lines 156-200): validate every line
against the current catalog, then persist the order and decrement stock. On a
validation error the store is untouched (no write precedes line 194). -/
def create_order (db : DB) (payload : CreateOrderRequest) :
    Except HTTPError OrderResponse × DB :=
  match validateItems db.phoneproducts payload.items with
  | .error e => (.error e, db)
  | .ok lis =>
    let committed := commitOrder db payload lis
    (.ok { order_id := committed.1, total := (buildOrder payload lis).total,
           status := "success" },
     committed.2)

/-- Interleaved execution of two concurrent create_order requests under the
schedule: validation loop of request a, validation loop of request b (both
therefore read the same pre-decrement stock values), then commit of a, then
commit of b. Each individual store operation is atomic; nothing in
create_order orders the validation of one request before the commit of the
other, so this schedule is a legal concurrent execution. Returns the final
store state when both requests succeed, none otherwise. -/
def twoOrderRace (db : DB) (a b : CreateOrderRequest) : Option DB :=
  match validateItems db.phoneproducts a.items,
        validateItems db.phoneproducts b.items with
  | .ok la, .ok lb =>
    let d1 := (commitOrder db a la).2
    let d2 := (commitOrder d1 b lb).2
    some d2
  | _, _ => none

/-- Success test on the first component of a create_order result. -/
def orderOk : Except HTTPError OrderResponse → Bool
  | .ok _ => true
  | .error _ => false

/-! Concrete fixtures used by the claim theorems. Every product id is a
well-formed ObjectId (24 hexadecimal characters). -/

def prodC1 : Phoneproduct :=
  { id := "aaaaaaaaaaaaaaaaaaaaaaa1", brand := "Apple",
    model := "iPhone 15 Pro", price := 1199, stock := 1, image := none }

def dbC1 : DB := { phoneproducts := [prodC1], orders := [] }

def reqC1 : CreateOrderRequest :=
  { customer_name := "Ann", email := "ann@example.com", address := "1 Way",
    city := "Rome", country := "IT",
    items := [{ product_id := "aaaaaaaaaaaaaaaaaaaaaaa1", qty := 1 },
              { product_id := "aaaaaaaaaaaaaaaaaaaaaaa1", qty := 1 }] }

def prodC2 : Phoneproduct :=
  { id := "aaaaaaaaaaaaaaaaaaaaaaa2", brand := "Apple",
    model := "iPhone 15 Pro", price := 1199, stock := 25, image := none }

def dbC2 : DB := { phoneproducts := [prodC2], orders := [] }

def prodC3 : Phoneproduct :=
  { id := "aaaaaaaaaaaaaaaaaaaaaaa3", brand := "Samsung",
    model := "Galaxy S23 Ultra", price := 1099, stock := 2, image := none }

def dbC3 : DB := { phoneproducts := [prodC3], orders := [] }

def reqC3 : CreateOrderRequest :=
  { customer_name := "Bob", email := "bob@example.com", address := "2 Way",
    city := "Oslo", country := "NO",
    items := [{ product_id := "aaaaaaaaaaaaaaaaaaaaaaa3", qty := 2 },
              { product_id := "aaaaaaaaaaaaaaaaaaaaaaa3", qty := 2 }] }

def prodC4 : Phoneproduct :=
  { id := "aaaaaaaaaaaaaaaaaaaaaaa4", brand := "Apple",
    model := "iPhone 15 Pro", price := 1199, stock := 1, image := none }

def dbC4 : DB := { phoneproducts := [prodC4], orders := [] }

def reqC4 : CreateOrderRequest :=
  { customer_name := "Cal", email := "cal@example.com", address := "3 Way",
    city := "Kyiv", country := "UA",
    items := [{ product_id := "aaaaaaaaaaaaaaaaaaaaaaa4", qty := 2 }] }

def prodC5 : Phoneproduct :=
  { id := "aaaaaaaaaaaaaaaaaaaaaaa5", brand := "Google",
    model := "Pixel 8 Pro", price := 999, stock := 15, image := none }

def dbC5 : DB := { phoneproducts := [prodC5], orders := [] }

def reqC5 : CreateOrderRequest :=
  { customer_name := "Dee", email := "dee@example.com", address := "4 Way",
    city := "Lima", country := "PE",
    items := [{ product_id := "aaaaaaaaaaaaaaaaaaaaaaa5", qty := 1 },
              { product_id := "bbbbbbbbbbbbbbbbbbbbbbb5", qty := 1 }] }

def prodC6 : Phoneproduct :=
  { id := "aaaaaaaaaaaaaaaaaaaaaaa6", brand := "Google",
    model := "Pixel 8 Pro", price := 999, stock := 15, image := none }

def catC6 : List Phoneproduct := [prodC6]

def prodC7 : Phoneproduct :=
  { id := "aaaaaaaaaaaaaaaaaaaaaaa7", brand := "Apple",
    model := "iPhone 15 Pro", price := 1199, stock := 25, image := none }

def catC7 : List Phoneproduct := [prodC7]

def prodC8 : Phoneproduct :=
  { id := "aaaaaaaaaaaaaaaaaaaaaaa8", brand := "Samsung",
    model := "Galaxy S23 Ultra", price := 1099, stock := 5, image := none }

def dbC8 : DB := { phoneproducts := [prodC8], orders := [] }

def reqC8a : CreateOrderRequest :=
  { customer_name := "", email := "", address := "", city := "", country := "",
    items := [] }

def reqC8b : CreateOrderRequest :=
  { customer_name := "Eve", email := "eve@example.com", address := "5 Way",
    city := "Bern", country := "CH",
    items := [{ product_id := "aaaaaaaaaaaaaaaaaaaaaaa8", qty := 0 }] }

def prodC9 : Phoneproduct :=
  { id := "aaaaaaaaaaaaaaaaaaaaaaa9", brand := "Google",
    model := "Pixel 8 Pro", price := 999, stock := 3, image := none }

def dbC9 : DB := { phoneproducts := [prodC9], orders := [] }

def reqC9a : CreateOrderRequest :=
  { customer_name := "Fay", email := "fay@example.com", address := "6 Way",
    city := "Baku", country := "AZ",
    items := [{ product_id := "aaaaaaaaaaaaaaaaaaaaaaa9", qty := 3 }] }

def reqC9b : CreateOrderRequest :=
  { customer_name := "Gil", email := "gil@example.com", address := "7 Way",
    city := "Hue", country := "VN",
    items := [{ product_id := "aaaaaaaaaaaaaaaaaaaaaaa9", qty := 3 }] }

def reqC2 : CreateOrderRequest :=
  { customer_name := "Hal", email := "hal@example.com", address := "9 Way",
    city := "Pune", country := "IN",
    items := [{ product_id := "aaaaaaaaaaaaaaaaaaaaaaa2", qty := 2 }] }

/-! Helper lemmas shared by the claim theorems. -/

theorem get_documents_all (cat : List Phoneproduct) :
    get_documents cat (fun _ => true) = cat := by
  simp [get_documents]

theorem processItem_error_eq {cat : List Phoneproduct} {it : CartItem}
    {e : HTTPError} (h : processItem cat it = .error e) :
    e = invalidProductError := by
  unfold processItem at h
  cases hb : processItemBody cat it <;> rw [hb] at h
  · have h2 : (Except.error invalidProductError :
        Except HTTPError LineItem) = Except.error e := h
    injection h2 with h3
    exact h3.symm
  · exact Except.noConfusion h

theorem validateItems_error_eq {cat : List Phoneproduct} :
    ∀ {its : List CartItem} {e : HTTPError},
      validateItems cat its = .error e → e = invalidProductError
  | [], _, h => Except.noConfusion h
  | a :: l, e, h => by
    rw [validateItems] at h
    cases hp : processItem cat a with
    | error e1 =>
      rw [hp] at h
      have h2 : (Except.error e1 : Except HTTPError (List LineItem))
          = Except.error e := h
      injection h2 with h3
      exact h3 ▸ processItem_error_eq hp
    | ok li =>
      rw [hp] at h
      cases hr : validateItems cat l with
      | error e2 =>
        rw [hr] at h
        have h2 : (Except.error e2 : Except HTTPError (List LineItem))
            = Except.error e := h
        injection h2 with h3
        exact h3 ▸ validateItems_error_eq hr
      | ok rest =>
        rw [hr] at h
        exact Except.noConfusion h

theorem validateItems_mem_error {cat : List Phoneproduct} :
    ∀ {its : List CartItem} {it : CartItem}, it ∈ its →
      ∀ {e : HTTPError}, processItem cat it = .error e →
        validateItems cat its = .error invalidProductError
  | [], it, hm, _, _ => absurd hm (List.not_mem_nil it)
  | a :: l, it, hm, e, he => by
    rw [validateItems]
    rcases List.mem_cons.mp hm with h | h
    · subst h
      rw [he]
      exact congrArg Except.error (processItem_error_eq he)
    · cases hp : processItem cat a with
      | error e1 =>
        exact congrArg Except.error (processItem_error_eq hp)
      | ok li =>
        rw [validateItems_mem_error h he]

theorem findOne_decStockFirst (cat : List Phoneproduct) (i : String) (q : ℤ) :
    findOne (decStockFirst cat i q) i
      = (findOne cat i).map (fun p => { p with stock := p.stock - q }) := by
  induction cat with
  | nil => rfl
  | cons p ps ih =>
    by_cases h : p.id = i
    · simp [decStockFirst, findOne, h]
    · simp [decStockFirst, findOne, h, ih]

theorem regexMatchHere_literal :
    ∀ {pat : List Char}, (∀ c ∈ pat, isRegexMeta c = false) →
      ∀ s : List Char, regexMatchHere pat s = isPrefixOfCI pat s
  | [], _, s => by cases s <;> rfl
  | p :: ps, hlit, s => by
    have hp : isRegexMeta p = false := hlit p (List.mem_cons_self p ps)
    have hdot : p ≠ Char.ofNat 46 := by
      intro h
      rw [h] at hp
      exact absurd hp (by decide)
    have htail : ∀ c ∈ ps, isRegexMeta c = false :=
      fun c hc => hlit c (List.mem_cons_of_mem p hc)
    cases s with
    | nil => rfl
    | cons c cs =>
      simp [regexMatchHere, isPrefixOfCI, regexCharMatch, hdot,
            regexMatchHere_literal htail cs]

theorem regexSearch_literal {pat : List Char}
    (hlit : ∀ c ∈ pat, isRegexMeta c = false) :
    ∀ s : List Char, regexSearch pat s = containsCIAux pat s
  | [] => by
    simp [regexSearch, containsCIAux, regexMatchHere_literal hlit]
  | c :: cs => by
    simp [regexSearch, containsCIAux, regexMatchHere_literal hlit,
          regexSearch_literal hlit cs]

/-- C1: on a catalog holding one product with stock 1 and a cart listing that
product twice with quantity 1, create_order succeeds, persists the order and
leaves stock at -1: the step-7 decrement is not a conditional
decrement-if-enough operation, no decrement is ever compensated, and no
InsufficientStock failure occurs, contradicting the claimed conditional
semantics at this input. -/
theorem create_order_unguarded_decrement :
    orderOk (create_order dbC1 reqC1).1 = true
    ∧ (create_order dbC1 reqC1).2.phoneproducts.map Phoneproduct.stock = [-1]
    ∧ (create_order dbC1 reqC1).2.orders.length = 1 := by
  decide

/-- C3: on a catalog holding one product with stock 2 and a cart listing that
product twice with quantity 2, create_order succeeds and leaves the product's
stock at -2, violating the invariant that stock is at least 0 after any
successful operation (and the schema's own lower bound on stock). -/
theorem create_order_duplicate_lines_negative_stock :
    orderOk (create_order dbC3 reqC3).1 = true
    ∧ (create_order dbC3 reqC3).2.phoneproducts.map Phoneproduct.stock = [-2]
    := by
  decide

/-- C4: an order whose single line requests quantity 2 of an existing product
with stock 1 fails with detail "Invalid product id": the HTTPException that
names the model (main.py line 169) is swallowed by the blanket except at line
180, so the surfaced message does not contain the offending model name. -/
theorem insufficient_stock_error_detail_generic :
    findOne dbC4.phoneproducts "aaaaaaaaaaaaaaaaaaaaaaa4" = some prodC4
    ∧ prodC4.stock < 2
    ∧ create_order dbC4 reqC4 = (.error invalidProductError, dbC4)
    ∧ containsCI prodC4.model invalidProductError.detail = false := by
  decide

/-- C6: a well-formed ObjectId that matches no product makes GET
/api/phones/:id fail with 400 "Invalid id", exactly like a malformed id,
because the HTTPException(404) of main.py line 138 is swallowed by the blanket
except at line 140; the two failure cases are not distinguishable by status
code. -/
theorem get_phone_notfound_indistinguishable :
    isValidObjectId "bbbbbbbbbbbbbbbbbbbbbbb6" = true
    ∧ findOne catC6 "bbbbbbbbbbbbbbbbbbbbbbb6" = none
    ∧ get_phone catC6 "bbbbbbbbbbbbbbbbbbbbbbb6"
        = .error { status := 400, detail := "Invalid id" }
    ∧ isValidObjectId "zz" = false
    ∧ get_phone catC6 "zz" = .error { status := 400, detail := "Invalid id" }
    := by
  decide

/-- C9: under the legal concurrent schedule in which both validation loops
read the catalog before either commit runs, two orders that each request the
full stock 3 of the same product both succeed (two order documents are
persisted) and the final stock is -3, not 0: the code oversells instead of
failing one of the orders with InsufficientStock. -/
theorem two_order_race_oversell :
    (twoOrderRace dbC9 reqC9a reqC9b).map
        (fun d => (d.phoneproducts.map Phoneproduct.stock, d.orders.length))
      = some ([-3], 2) := by
  decide

/-- C8 counterexample: a request whose customer fields are all empty strings
and whose items list is empty is accepted (an order document is persisted for
it), and a request whose single line has quantity 0 is accepted as well, so
order placement does not enforce non-emptiness of the customer fields, a
non-empty items list, or quantity at least 1. -/
theorem create_order_accepts_invalid_request_cex :
    reqC8a.customer_name = "" ∧ reqC8a.items = []
    ∧ orderOk (create_order dbC8 reqC8a).1 = true
    ∧ (create_order dbC8 reqC8a).2.orders.length = 1
    ∧ reqC8b.items.map CartItem.qty = [0]
    ∧ orderOk (create_order dbC8 reqC8b).1 = true := by
  decide

/-- C8 amended: request validation enforces only the presence and types of
the fields; a request with an empty items list is accepted whatever its
customer fields contain, persisting a "pending" order with no items and total
0 while changing no stock. -/
theorem create_order_no_content_validation
    (db : DB) (nm em ad ci co : String) :
    create_order db ⟨nm, em, ad, ci, co, []⟩
      = (.ok ⟨"order-" ++ toString db.orders.length, 0, "success"⟩,
         ⟨db.phoneproducts,
          db.orders ++ [⟨nm, em, ad, ci, co, [], 0, "pending"⟩]⟩) := by
  have h0 : round2 (itemsTotal []) = 0 := by
    show round2 0 = 0
    unfold round2 roundHalfEven
    norm_num
  simp [create_order, validateItems, commitOrder, buildOrder,
        create_document, applyDecrements, h0]

/-- C10: a catalog list request whose query string is empty behaves exactly
like a request with no query: Python's truthiness test on the query leaves
the Mongo filter empty in both cases, so all products are returned. -/
theorem list_phones_empty_query_all (cat : List Phoneproduct) :
    list_phones cat (some "") = cat ∧ list_phones cat none = cat := by
  constructor <;> simp [list_phones, get_documents_all]

/-- C2: an order carrying a single line of quantity Q for an existing product
with stock at least Q succeeds; afterwards the product's stock is its old
stock minus Q, and the persisted order has total round2 of unit price times Q
and status "pending" (the response carries the same total). -/
theorem create_order_single_item_success
    (db : DB) (pid : String) (prod : Phoneproduct) (Q : ℤ)
    (nm em ad ci co : String)
    (hid : isValidObjectId pid = true)
    (hfind : findOne db.phoneproducts pid = some prod)
    (hstock : Q ≤ prod.stock) :
    create_order db ⟨nm, em, ad, ci, co, [⟨pid, Q⟩]⟩
      = (.ok ⟨"order-" ++ toString db.orders.length,
              round2 (prod.price * (Q : ℚ)), "success"⟩,
         ⟨decStockFirst db.phoneproducts pid Q,
          db.orders ++ [⟨nm, em, ad, ci, co,
            [⟨pid, prod.brand, prod.model, prod.price, Q, prod.image⟩],
            round2 (prod.price * (Q : ℚ)), "pending"⟩]⟩)
    ∧ findOne (decStockFirst db.phoneproducts pid Q) pid
        = some { prod with stock := prod.stock - Q } := by
  have hnl : ¬ (prod.stock < Q) := not_lt.mpr hstock
  have hbody : processItemBody db.phoneproducts ⟨pid, Q⟩
      = .ok ⟨pid, prod.brand, prod.model, prod.price, Q, prod.image⟩ := by
    simp [processItemBody, hid, hfind, hnl]
  refine ⟨?_, ?_⟩
  · simp [create_order, validateItems, processItem, hbody, commitOrder,
          buildOrder, itemsTotal, create_document, applyDecrements]
  · rw [findOne_decStockFirst, hfind]
    rfl

/-- C2 witness: on the one-product catalog with stock 25, quantity 2 meets the
hypotheses and leaves the product with stock 23. -/
theorem create_order_single_item_success_witness :
    (2 : ℤ) ≤ prodC2.stock
    ∧ findOne (decStockFirst dbC2.phoneproducts "aaaaaaaaaaaaaaaaaaaaaaa2" 2)
        "aaaaaaaaaaaaaaaaaaaaaaa2"
        = some { prodC2 with stock := prodC2.stock - 2 } :=
  ⟨by decide,
   (create_order_single_item_success dbC2 "aaaaaaaaaaaaaaaaaaaaaaa2" prodC2 2
      "Hal" "hal@example.com" "9 Way" "Pune" "IN"
      (by decide) (by decide) (by decide)).2⟩

/-- C5: whenever some cart line carries a well-formed product id that matches
no product, create_order fails with the 400 "Invalid product id" error (the
InvalidProduct client error) and the store is returned unchanged: no order
document is persisted and no product's stock is altered. -/
theorem create_order_missing_product_rolls_back
    (db : DB) (payload : CreateOrderRequest)
    (h : ∃ it, it ∈ payload.items ∧ isValidObjectId it.product_id = true
          ∧ findOne db.phoneproducts it.product_id = none) :
    create_order db payload = (.error invalidProductError, db) := by
  obtain ⟨it, hm, hv, hf⟩ := h
  have hpe : processItem db.phoneproducts it = .error invalidProductError := by
    simp [processItem, processItemBody, hv, hf]
  have hval := validateItems_mem_error hm hpe
  simp [create_order, hval]

/-- C5 witness: a two-line order whose second line references an absent id
fails with the InvalidProduct error, leaving the store untouched. -/
theorem create_order_missing_product_rolls_back_witness :
    isValidObjectId "bbbbbbbbbbbbbbbbbbbbbbb5" = true
    ∧ findOne dbC5.phoneproducts "bbbbbbbbbbbbbbbbbbbbbbb5" = none
    ∧ create_order dbC5 reqC5 = (.error invalidProductError, dbC5) :=
  ⟨by decide, by decide,
   create_order_missing_product_rolls_back dbC5 reqC5
     ⟨⟨"bbbbbbbbbbbbbbbbbbbbbbb5", 1⟩, by decide, by decide, by decide⟩⟩

/-- C7 counterexample: with the filter string ".", list_phones returns the
whole one-product catalog although "." is not a case-insensitive substring of
the product's brand or model (the Mongo regex treats "." as a wildcard), so
the claim's for-every-filter-string substring reading is false. -/
theorem list_phones_regex_cex :
    list_phones catC7 (some ".") = [prodC7]
    ∧ containsCI "." prodC7.brand = false
    ∧ containsCI "." prodC7.model = false
    ∧ catC7.filter
        (fun p => containsCI "." p.brand || containsCI "." p.model) = [] := by
  decide

/-- C7 amended: for every non-empty filter string made only of characters
without regular-expression meaning, list(filter) returns exactly the products
whose brand or model contains the filter as a case-insensitive substring
(strings containing regex metacharacters are instead interpreted as
case-insensitive regular expressions); list with no filter returns all
products. -/
theorem list_phones_literal_substring
    (cat : List Phoneproduct) (q : String)
    (hne : q ≠ "")
    (hlit : ∀ c ∈ q.data, isRegexMeta c = false) :
    list_phones cat (some q)
      = cat.filter (fun p => containsCI q p.brand || containsCI q p.model)
    ∧ list_phones cat none = cat := by
  constructor
  · simp only [list_phones]
    rw [if_neg hne]
    unfold get_documents
    apply List.filter_congr
    intro p _
    simp [mongoRegexFilter, containsCI, regexSearch_literal hlit]
  · simp only [list_phones]
    exact get_documents_all cat

/-- C7 witness: the metacharacter-free filter "pro" selects the catalog's one
product by case-insensitive substring of its model. -/
theorem list_phones_literal_substring_witness :
    ("pro" : String) ≠ ""
    ∧ (list_phones catC7 (some "pro")
        = catC7.filter
            (fun p => containsCI "pro" p.brand || containsCI "pro" p.model)
      ∧ list_phones catC7 none = catC7) :=
  ⟨by decide, list_phones_literal_substring catC7 "pro" (by decide) (by decide)⟩

end PhoneStore
